import Mathlib

/-!
Verification of the frame-sampling and media-probing pipeline of the
`video-to-context` tool (`src/v2i/extractor.py`, `src/v2i/optimizer.py`).

The Python code is shallowly embedded: pure numeric logic becomes Lean
functions on `Nat` / `Int` / `Rat` (Python floats implementing real-valued
formulas are modelled as exact rationals; Python `int()` applied to a
nonnegative value is the floor), fallible operations return `Option`, and the
external collaborators (PIL, ffprobe, ffmpeg) are abstracted as explicit input
data that the embedded functions consume exactly the way the source reads them.
-/

namespace V2I

/-! ## Optimizer: `resize_image` (src/v2i/optimizer.py, lines 34-63)

The source computes
  `if width <= max_size and height <= max_size: return image`
  `if width > height: new_width = max_size; new_height = int(height * (max_size / width))`
  `else: new_height = max_size; new_width = int(width * (max_size / height))`
Only the dimension arithmetic matters for the claims; `int` truncates and the
scaled value is nonnegative, so `int(height * (max_size / width))` is
`(height * max_size) / width` in natural-number (floor) division. -/

/-- Dimension part of `resize_image`: given `(width, height)` of the input and
`max_size`, the `(width, height)` of the returned image. -/
def resize_dims (width height max_size : Nat) : Nat × Nat :=
  if width ≤ max_size ∧ height ≤ max_size then (width, height)
  else if height < width then (max_size, (height * max_size) / width)
  else ((width * max_size) / height, max_size)

/-- The spec-side variant of the scaled dimension: proportional scaling
rounded to the *nearest* integer (what the spec asserts), to be compared with
the truncating computation of the source. -/
def resize_dims_spec_rounded (width height max_size : Nat) : Int × Int :=
  if width ≤ max_size ∧ height ≤ max_size then ((width : Int), (height : Int))
  else if height < width then
    ((max_size : Int), round ((height * max_size : ℚ) / (width : ℚ)))
  else (round ((width * max_size : ℚ) / (height : ℚ)), (max_size : Int))

/-! ## Optimizer: pixel-mode handling in `optimize_image`
(src/v2i/optimizer.py, lines 86-103)

The source converts the pixel mode before resizing and encoding:
  `if output_format in ("jpg", "jpeg") and img.mode in ("RGBA", "P", "LA"):`
  create a white RGB background and paste the image onto it (white-background
  compositing; the inner `if/elif/else` only chooses the paste mask);
  `elif img.mode not in ("RGB", "RGBA", "L"): img = img.convert("RGB")`
  (a plain mode conversion, no compositing). -/

/-- The PIL pixel modes distinguished by `optimize_image`; `other` stands for
any further mode (e.g. CMYK) that is not special-cased by name. -/
inductive PixMode where
  | RGB
  | RGBA
  | P
  | LA
  | L
  | other
deriving DecidableEq

/-- Mode-conversion step of `optimize_image`: returns the pixel mode the image
has after the conversion block, paired with whether white-background
compositing was performed. -/
def optimize_image_mode (output_format : String) (mode : PixMode) : PixMode × Bool :=
  if (output_format = "jpg" ∨ output_format = "jpeg") ∧
      (mode = PixMode.RGBA ∨ mode = PixMode.P ∨ mode = PixMode.LA) then
    (PixMode.RGB, true)
  else if mode = PixMode.RGB ∨ mode = PixMode.RGBA ∨ mode = PixMode.L then
    (mode, false)
  else
    (PixMode.RGB, false)

/-! ## GIF sampling plan: `extract_frames_gif` (src/v2i/extractor.py, lines 214-219)

  `if total_frames <= num_frames: frame_indices = list(range(total_frames))`
  `else: step = total_frames / num_frames`
  `      frame_indices = [int(i * step) for i in range(num_frames)]`
The real-valued `step` is embedded as an exact rational; `int` on the
nonnegative product is the floor. -/

/-- The list of frame indices `extract_frames_gif` plans to extract. -/
def gif_frame_indices (total_frames num_frames : Nat) : List Nat :=
  if total_frames ≤ num_frames then List.range total_frames
  else
    let step : ℚ := (total_frames : ℚ) / (num_frames : ℚ)
    (List.range num_frames).map (fun (i : Nat) => ⌊(i : ℚ) * step⌋₊)

/-! ## Python-side primitives used by `get_media_info` -/

/-- Python `int()` applied to a real number: truncation toward zero. -/
def ratTrunc (q : ℚ) : Int := if 0 ≤ q then ⌊q⌋ else ⌈q⌉

/-- Value of a list of decimal digit characters. -/
def digitsToNat (cs : List Char) : Nat :=
  cs.foldl (fun a c => a * 10 + (c.toNat - 48)) 0

/-- Parse a nonempty all-digit character list; `none` otherwise. -/
def parseNatDigits (cs : List Char) : Option Nat :=
  if !cs.isEmpty && cs.all (fun c => c.isDigit) then some (digitsToNat cs) else none

/-- Strip one leading sign character: returns (isNegative, rest). -/
def splitSign : List Char → Bool × List Char
  | '-' :: rest => (true, rest)
  | '+' :: rest => (false, rest)
  | cs => (false, cs)

/-- Split a character list on a separator character, keeping empty pieces,
like Python `str.split(sep)` with a one-character separator. -/
def splitOnChar (c : Char) : List Char → List (List Char)
  | [] => [[]]
  | x :: xs =>
    match splitOnChar c xs with
    | [] => if x = c then [[], [x]] else [[x]]
    | y :: ys => if x = c then [] :: y :: ys else (x :: y) :: ys

/-- Mantissa of a decimal literal: digits, optionally with one decimal point;
at least one digit overall. -/
def parseMantissa (cs : List Char) : Option ℚ :=
  match splitOnChar '.' cs with
  | [ip] => (parseNatDigits ip).map (fun v => (v : ℚ))
  | [ip, fp] =>
    if ip.isEmpty && fp.isEmpty then none
    else if ip.all (fun c => c.isDigit) && fp.all (fun c => c.isDigit) then
      some ((digitsToNat ip : ℚ) + (digitsToNat fp : ℚ) / ((10 : ℚ) ^ fp.length))
    else none
  | _ => none

/-- Model of Python `float()` on a character list: optional sign, decimal
mantissa, optional `e`/`E` exponent; `none` models `ValueError`. Whitespace
trimming, digit-group underscores and the non-finite literals `inf`/`nan`
(not representable in `ℚ`) are outside the model. -/
def pyFloatChars (cs0 : List Char) : Option ℚ :=
  let cs := cs0.map (fun c => if c = 'E' then 'e' else c)
  let sn := splitSign cs
  let signed := fun (q : ℚ) => if sn.1 then -q else q
  match splitOnChar 'e' sn.2 with
  | [m] => (parseMantissa m).map signed
  | [m, ex] =>
    match parseMantissa m, splitSign ex with
    | some q, (eneg, ecs) =>
      match parseNatDigits ecs with
      | some k => some (signed q * (if eneg then 1 / (10 : ℚ) ^ k else (10 : ℚ) ^ k))
      | none => none
    | none, _ => none
  | _ => none

/-- Model of Python `float()` on a string. -/
def pyFloat (s : String) : Option ℚ := pyFloatChars s.toList

/-- Lower-casing of a format name, as Python `str.lower()` on ASCII. -/
def strLower (s : String) : String := ⟨s.toList.map Char.toLower⟩

/-! ## MediaProbe: `get_media_info` (src/v2i/extractor.py, lines 76-180) -/

/-- Normalized description of a probed media file (the `MediaInfo` dataclass).
Numeric fields follow the source: `frame_count` is a Python int (possibly
derived by `int(duration * fps)`), `duration` and `fps` are floats embedded
as exact rationals. -/
structure MediaInfo where
  path : String
  width : Nat
  height : Nat
  duration : ℚ
  frame_count : Int
  fps : ℚ
  format : String
  codec : Option String := none
deriving DecidableEq

/-- Derived property `MediaInfo.is_animated`. -/
def MediaInfo.is_animated (m : MediaInfo) : Bool := m.frame_count > 1

/-- Frame-rate parsing inside the ffprobe branch of `get_media_info`
(src/v2i/extractor.py, lines 155-163):
  `if "/" in fps_str: num, den = fps_str.split("/")`
  `  fps = float(num) / float(den) if float(den) != 0 else 30.0`
  `else: fps = float(fps_str)`
with `ValueError` (malformed number, or a split into ≠ 2 pieces) caught and
defaulted to `30.0`. -/
def parse_frame_rate (fps_str : String) : ℚ :=
  match splitOnChar '/' fps_str.toList with
  | [a] =>
    match pyFloatChars a with
    | some v => v
    | none => 30
  | [numChars, denChars] =>
    match pyFloatChars numChars, pyFloatChars denChars with
    | some num, some den => if den ≠ 0 then num / den else 30
    | _, _ => 30
  | _ => 30

/-- One ffprobe stream, holding exactly the fields `get_media_info` reads;
`none` models an absent JSON key (numeric strings arrive already parsed). -/
structure FFStream where
  codec_type : String
  width : Option Nat := none
  height : Option Nat := none
  codec_name : Option String := none
  duration : Option ℚ := none
  r_frame_rate : Option String := none
  nb_frames : Option Int := none

/-- The ffprobe JSON document: the stream list and `format.duration`. -/
structure FFProbeData where
  streams : List FFStream
  format_duration : Option ℚ := none

/-- First stream whose `codec_type` is `"video"` (the selection loop,
src/v2i/extractor.py, lines 135-139). -/
def find_video_stream (pd : FFProbeData) : Option FFStream :=
  pd.streams.find? (fun s => s.codec_type == "video")

/-- Duration resolution (lines 146-151): the stream duration if present, else
the container-level `format.duration`, else `0`. -/
def stream_duration (pd : FFProbeData) (vs : FFStream) : ℚ :=
  match vs.duration with
  | some d => d
  | none => pd.format_duration.getD 0

/-- The ffprobe branch of `get_media_info` (lines 132-180): `none` when no
video stream is present, otherwise the assembled `MediaInfo`. -/
def ffprobe_media_info (path : String) (pd : FFProbeData) : Option MediaInfo :=
  match find_video_stream pd with
  | none => none
  | some vs =>
    let codec := vs.codec_name.getD "unknown"
    let duration := stream_duration pd vs
    let fps := parse_frame_rate (vs.r_frame_rate.getD "30/1")
    let nb : Int := vs.nb_frames.getD 0
    let frame_count : Int :=
      if nb = 0 ∧ 0 < duration then ratTrunc (duration * fps) else nb
    some { path := path, width := vs.width.getD 0, height := vs.height.getD 0,
           duration := duration, frame_count := frame_count, fps := fps,
           format := if codec = "gif" then "gif" else "video", codec := some codec }

/-- A file as seen by the image library (PIL.Image.open), carrying what the
PIL branch of `get_media_info` reads: dimensions, the container format
(`none` for a falsy `img.format`), and the per-frame `duration` entries of
the frame walk. PIL always exposes at least one frame, so frame 0 is held
separately from the rest. -/
structure PILImage where
  width : Nat
  height : Nat
  format : Option String := none
  firstFrameDuration : Option Nat := none
  restFrameDurations : List (Option Nat) := []

/-- `img.format.lower() if img.format else "unknown"` (line 90): `None` and
the empty string are falsy. -/
def pil_format_name (f : Option String) : String :=
  match f with
  | none => "unknown"
  | some s => if s = "" then "unknown" else strLower s

/-- Frame count of the GIF frame walk (lines 94-104): one per visited frame,
ending when the seek past the last frame raises `EOFError`. -/
def gif_frame_count (img : PILImage) : Nat := 1 + img.restFrameDurations.length

/-- Total duration (milliseconds) accumulated by the walk: each frame
contributes `img.info.get("duration", 100)`. -/
def gif_total_duration_ms (img : PILImage) : Nat :=
  ((img.firstFrameDuration :: img.restFrameDurations).map (fun d => d.getD 100)).sum

/-- The PIL branch of `get_media_info` (lines 87-128). -/
def pil_media_info (path : String) (img : PILImage) : MediaInfo :=
  if pil_format_name img.format = "gif" then
    let frame_count := gif_frame_count img
    let duration_sec : ℚ := (gif_total_duration_ms img : ℚ) / 1000
    let fps : ℚ := if 0 < duration_sec then (frame_count : ℚ) / duration_sec else 10
    { path := path, width := img.width, height := img.height,
      duration := duration_sec, frame_count := (frame_count : Int), fps := fps,
      format := "gif" }
  else
    { path := path, width := img.width, height := img.height,
      duration := 0, frame_count := 1, fps := 0, format := "image" }

/-- `get_media_info` (lines 76-180) over the outcomes of its collaborators:
whether the path exists, the PIL open result (`none` models the caught
exception) and the ffprobe result (`none` models ffprobe missing, timing out
or emitting unparsable output). PIL is tried first; ffprobe is the fallback. -/
def get_media_info (path : String) (path_exists : Bool) (pil : Option PILImage)
    (probe : Option FFProbeData) : Option MediaInfo :=
  if path_exists = false then none
  else
    match pil with
    | some img => some (pil_media_info path img)
    | none =>
      match probe with
      | some pd => ffprobe_media_info path pd
      | none => none

/-! ## Video sampling plan: `extract_frames_video`
(src/v2i/extractor.py, lines 287-318)

The source builds one of two ffmpeg invocations:
  duration ≤ 0: video filter `select=lt(n,num_frames)` with `-vsync vfr`
    and `-frames:v num_frames` (the first `num_frames` decode-order frames);
  otherwise: `target_fps = max(0.1, num_frames / duration)`, video filter
    `fps=target_fps` and `-frames:v num_frames`.
The invocation is embedded structurally: the filter and the frame cap. -/

/-- The video filter placed in the ffmpeg command. -/
inductive VideoFilter where
  | selectFirst (n : Nat) : VideoFilter
  | fpsRate (rate : ℚ) : VideoFilter
deriving DecidableEq

/-- The sampling-relevant part of the ffmpeg command: the filter and the
`-frames:v` output cap. -/
structure VideoCmd where
  filter : VideoFilter
  frames_cap : Nat
deriving DecidableEq

/-- Sampling plan of `extract_frames_video`, as a function of the probed
duration and the requested frame count. -/
def extract_frames_video_cmd (duration : ℚ) (num_frames : Nat) : VideoCmd :=
  if duration ≤ 0 then
    { filter := VideoFilter.selectFirst num_frames, frames_cap := num_frames }
  else
    { filter := VideoFilter.fpsRate (max (1 / 10 : ℚ) ((num_frames : ℚ) / duration)),
      frames_cap := num_frames }

/-- A concrete ffprobe stream exercising the frame-count derivation: 0.53 s
duration, rate `20/1`, no `nb_frames` field. -/
def sampleVideoStream : FFStream :=
  { codec_type := "video", width := some 640, height := some 480,
    codec_name := some "h264", duration := some (53 / 100),
    r_frame_rate := some "20/1" }

/-- An ffprobe document holding just `sampleVideoStream`. -/
def sampleProbeData : FFProbeData := { streams := [sampleVideoStream] }

/-! ## Theorems -/

/-- Evaluation of the frame-rate parser on the ratio string `20/1`. -/
theorem parse_frame_rate_eval_20_1 : parse_frame_rate "20/1" = 20 := by
  have hs : splitOnChar '/' "20/1".toList = [['2','0'], ['1']] := rfl
  have h1 : pyFloatChars ['2','0'] = some ((20 : ℕ) : ℚ) := rfl
  have h2 : pyFloatChars ['1'] = some ((1 : ℕ) : ℚ) := rfl
  simp only [parse_frame_rate, hs, h1, h2]
  norm_num

/-- Floor of `i * (t / n)` over `ℚ` is natural-number division `(i * t) / n`. -/
theorem floor_mul_div (i t n : Nat) :
    ⌊(i : ℚ) * ((t : ℚ) / (n : ℚ))⌋₊ = (i * t) / n := by
  have h : (i : ℚ) * ((t : ℚ) / (n : ℚ)) = ((i * t : ℕ) : ℚ) / ((n : ℕ) : ℚ) := by
    push_cast; ring
  rw [h, Nat.floor_div_nat, Nat.floor_natCast]

/-- Natural division is superadditive. -/
theorem div_superadd (a b n : Nat) (hn : 0 < n) : a / n + b / n ≤ (a + b) / n := by
  rw [Nat.le_div_iff_mul_le hn]
  calc (a / n + b / n) * n = (a / n) * n + (b / n) * n := by ring
    _ ≤ a + b := Nat.add_le_add (Nat.div_mul_le_self a n) (Nat.div_mul_le_self b n)

/-- When `n < t`, the map `i ↦ (i * t) / n` is strictly monotone. -/
theorem sample_strict_mono (t n : Nat) (hlt : n < t) (hn : 0 < n) :
    ∀ i j : Nat, i < j → (i * t) / n < (j * t) / n := by
  intro i j hij
  have hstep : (i * t) / n + 1 ≤ ((i + 1) * t) / n := by
    have h1 : 1 ≤ t / n := (Nat.one_le_div_iff hn).mpr (le_of_lt hlt)
    calc (i * t) / n + 1 ≤ (i * t) / n + t / n := by omega
      _ ≤ (i * t + t) / n := div_superadd (i * t) t n hn
      _ = ((i + 1) * t) / n := by ring_nf
  calc (i * t) / n < ((i + 1) * t) / n := by omega
    _ ≤ (j * t) / n := Nat.div_le_div_right (Nat.mul_le_mul_right t hij)

/-- C1: for `total_frames ≥ 1` and `requested_n ≥ 1`, the GIF sampling plan is
`[0 .. total_frames-1]` when `total_frames ≤ requested_n`; otherwise it is
`floor (i * (total_frames / requested_n))` for `i = 0 .. requested_n-1`, has
length `requested_n`, is strictly increasing, starts with `0`, and every
element is `< total_frames`; e.g. `total_frames = 10, requested_n = 3` gives
`[0, 3, 6]`. -/
theorem gif_sampling_plan_spec (t n : Nat) (ht : 1 ≤ t) (hn : 1 ≤ n) :
    (t ≤ n → gif_frame_indices t n = List.range t) ∧
    (n < t →
      (gif_frame_indices t n).length = n ∧
      (gif_frame_indices t n).Pairwise (· < ·) ∧
      (gif_frame_indices t n).head? = some 0 ∧
      ∀ x ∈ gif_frame_indices t n, x < t) ∧
    gif_frame_indices 10 3 = [0, 3, 6] := by
  refine ⟨?_, ?_, ?_⟩
  · intro hle; simp [gif_frame_indices, hle]
  · intro hlt
    have hnn : ¬ t ≤ n := not_le.mpr hlt
    have hn0 : 0 < n := by omega
    have hrw : gif_frame_indices t n = (List.range n).map (fun i => (i * t) / n) := by
      simp only [gif_frame_indices, if_neg hnn]
      exact List.map_congr_left (fun i _ => floor_mul_div i t n)
    rw [hrw]
    refine ⟨by simp, ?_, ?_, ?_⟩
    · exact List.Pairwise.map _
        (fun a b hab => sample_strict_mono t n hlt hn0 a b hab)
        (List.pairwise_lt_range n)
    · obtain ⟨m, rfl⟩ : ∃ m, n = m + 1 := ⟨n - 1, by omega⟩
      simp [List.range_succ_eq_map]
    · intro x hx
      simp only [List.mem_map, List.mem_range] at hx
      obtain ⟨i, hi, rfl⟩ := hx
      rw [Nat.div_lt_iff_lt_mul hn0]
      calc i * t < n * t := (Nat.mul_lt_mul_right (by omega : 0 < t)).mpr hi
        _ = t * n := Nat.mul_comm n t
  · simp only [gif_frame_indices]
    norm_num [List.range_succ]
    constructor
    · rw [Nat.floor_eq_iff (by norm_num)]; norm_num
    · rw [Nat.floor_eq_iff (by norm_num)]; norm_num

/-- Witness for C1 at `total_frames = 10`, `requested_n = 3`. -/
theorem gif_sampling_plan_spec_witness :
    ((1 : Nat) ≤ 10 ∧ (1 : Nat) ≤ 3) ∧ gif_frame_indices 10 3 = [0, 3, 6] :=
  ⟨⟨by decide, by decide⟩, (gif_sampling_plan_spec 10 3 (by decide) (by decide)).2.2⟩

/-- C3 counterexample: at `width = 2000`, `height = 1001`, `max_size = 1024`
the source truncates the scaled dimension to `512`, while rounding to the
nearest integer (as the claim states) gives `513`. -/
theorem resize_rounding_counterexample :
    resize_dims 2000 1001 1024 = (1024, 512) ∧
    resize_dims_spec_rounded 2000 1001 1024 = (1024, 513) ∧
    ((resize_dims 2000 1001 1024).2 : Int) ≠ (resize_dims_spec_rounded 2000 1001 1024).2 := by
  refine ⟨by decide, ?_, ?_⟩
  · norm_num [resize_dims_spec_rounded, round_eq]
  · norm_num [resize_dims, resize_dims_spec_rounded, round_eq]

/-- C3 amended: for every image with a dimension exceeding `max_size`,
`resize_image` makes the larger dimension exactly `max_size` and the other
dimension the proportionally scaled value truncated (floor), not rounded to
nearest. -/
theorem resize_larger_dim_floor (w h m : Nat) (hbig : ¬(w ≤ m ∧ h ≤ m)) :
    max (resize_dims w h m).1 (resize_dims w h m).2 = m ∧
    (h < w → (resize_dims w h m).1 = m ∧
      (resize_dims w h m).2 = ⌊((h : ℚ) * (m : ℚ)) / (w : ℚ)⌋₊) ∧
    (¬ h < w → (resize_dims w h m).2 = m ∧
      (resize_dims w h m).1 = ⌊((w : ℚ) * (m : ℚ)) / (h : ℚ)⌋₊) := by
  have key : ∀ a b : Nat, ((a : ℚ) * (b : ℚ)) = ((a * b : ℕ) : ℚ) := by
    intro a b; push_cast; ring
  by_cases h2 : h < w
  · have hwpos : 0 < w := lt_of_le_of_lt (Nat.zero_le h) h2
    have hmw : m < w := by
      by_contra hc
      exact hbig ⟨le_of_not_lt hc, le_of_lt (lt_of_lt_of_le h2 (le_of_not_lt hc))⟩
    have hle2 : (h * m) / w ≤ m := by
      calc (h * m) / w ≤ (w * m) / w :=
            Nat.div_le_div_right (Nat.mul_le_mul_right m (le_of_lt h2))
        _ = m := Nat.mul_div_cancel_left m hwpos
    have hfloor : ⌊((h : ℚ) * (m : ℚ)) / (w : ℚ)⌋₊ = (h * m) / w := by
      rw [key h m, Nat.floor_div_nat, Nat.floor_natCast]
    simp [resize_dims, hbig, h2, hfloor, max_eq_left hle2]
  · have hwh : w ≤ h := le_of_not_lt h2
    have hmh : m < h := by
      by_contra hc
      exact hbig ⟨le_trans hwh (le_of_not_lt hc), le_of_not_lt hc⟩
    have hhpos : 0 < h := lt_of_le_of_lt (Nat.zero_le m) hmh
    have hle2 : (w * m) / h ≤ m := by
      calc (w * m) / h ≤ (h * m) / h :=
            Nat.div_le_div_right (Nat.mul_le_mul_right m hwh)
        _ = m := Nat.mul_div_cancel_left m hhpos
    have hfloor : ⌊((w : ℚ) * (m : ℚ)) / (h : ℚ)⌋₊ = (w * m) / h := by
      rw [key w m, Nat.floor_div_nat, Nat.floor_natCast]
    simp [resize_dims, hbig, h2, hfloor, max_eq_right hle2]

/-- Witness for the amended C3 at `width = 2000`, `height = 1001`,
`max_size = 1024`. -/
theorem resize_larger_dim_floor_witness :
    ¬((2000 : Nat) ≤ 1024 ∧ (1001 : Nat) ≤ 1024) ∧
    max (resize_dims 2000 1001 1024).1 (resize_dims 2000 1001 1024).2 = 1024 :=
  ⟨by decide, (resize_larger_dim_floor 2000 1001 1024 (by decide)).1⟩

/-- C6: `resize_image` never upscales (neither output dimension exceeds the
original) and is idempotent: resizing the resized dimensions with the same
`max_size` changes nothing. -/
theorem resize_no_upscale_idempotent (w h m : Nat) :
    (resize_dims w h m).1 ≤ w ∧ (resize_dims w h m).2 ≤ h ∧
    resize_dims (resize_dims w h m).1 (resize_dims w h m).2 m = resize_dims w h m := by
  by_cases h1 : w ≤ m ∧ h ≤ m
  · simp [resize_dims, h1]
  · by_cases h2 : h < w
    · have hwpos : 0 < w := lt_of_le_of_lt (Nat.zero_le h) h2
      have hmw : m < w := by
        by_contra hc
        exact h1 ⟨le_of_not_lt hc, le_of_lt (lt_of_lt_of_le h2 (le_of_not_lt hc))⟩
      have hle1 : (h * m) / w ≤ h := by
        calc (h * m) / w ≤ (h * w) / w :=
              Nat.div_le_div_right (Nat.mul_le_mul_left h (le_of_lt hmw))
          _ = h := Nat.mul_div_cancel h hwpos
      have hle2 : (h * m) / w ≤ m := by
        calc (h * m) / w ≤ (w * m) / w :=
              Nat.div_le_div_right (Nat.mul_le_mul_right m (le_of_lt h2))
          _ = m := Nat.mul_div_cancel_left m hwpos
      simp [resize_dims, h1, h2, hle2, le_refl]
      exact ⟨le_of_lt hmw, hle1⟩
    · have hwh : w ≤ h := le_of_not_lt h2
      have hmh : m < h := by
        by_contra hc
        exact h1 ⟨le_trans hwh (le_of_not_lt hc), le_of_not_lt hc⟩
      have hhpos : 0 < h := lt_of_le_of_lt (Nat.zero_le m) hmh
      have hle1 : (w * m) / h ≤ w := by
        calc (w * m) / h ≤ (w * h) / h :=
              Nat.div_le_div_right (Nat.mul_le_mul_left w (le_of_lt hmh))
          _ = w := Nat.mul_div_cancel w hhpos
      have hle2 : (w * m) / h ≤ m := by
        calc (w * m) / h ≤ (h * m) / h :=
              Nat.div_le_div_right (Nat.mul_le_mul_right m hwh)
          _ = m := Nat.mul_div_cancel_left m hhpos
      simp [resize_dims, h1, h2, hle2, le_refl]
      exact ⟨hle1, le_of_lt hmh⟩

/-- C10: `resize_image` can return a dimension equal to `0`: an extreme
aspect ratio (`width = 5000`, `height = 1`, `max_size = 1024`) yields the
size `1024 × 0`, so output dimensions are not always positive. -/
theorem resize_zero_height_example :
    resize_dims 5000 1 1024 = (1024, 0) ∧ (resize_dims 5000 1 1024).2 = 0 := by
  decide

/-- C2 amended: in the ffprobe branch of `get_media_info`, when the stream
frame count is absent or zero and the duration is positive, the returned
`frame_count` is `duration * fps` truncated toward zero (`int()`), which for
the nonnegative product is the floor, not the nearest integer. -/
theorem ffprobe_frame_count_truncation (path : String) (pd : FFProbeData) (vs : FFStream)
    (hvs : find_video_stream pd = some vs)
    (hnb : vs.nb_frames.getD 0 = 0)
    (hdur : 0 < stream_duration pd vs)
    (hfps : 0 ≤ parse_frame_rate (vs.r_frame_rate.getD "30/1")) :
    (ffprobe_media_info path pd).map (fun info => info.frame_count) =
      some ⌊stream_duration pd vs * parse_frame_rate (vs.r_frame_rate.getD "30/1")⌋ := by
  simp only [ffprobe_media_info, hvs, Option.map_some]
  rw [if_pos ⟨hnb, hdur⟩]
  unfold ratTrunc
  rw [if_pos (mul_nonneg (le_of_lt hdur) hfps)]
  rfl

/-- Witness for the amended C2 on the concrete 0.53 s, 20 fps stream. -/
theorem ffprobe_frame_count_truncation_witness :
    (find_video_stream sampleProbeData = some sampleVideoStream ∧
     sampleVideoStream.nb_frames.getD 0 = 0 ∧
     0 < stream_duration sampleProbeData sampleVideoStream ∧
     0 ≤ parse_frame_rate (sampleVideoStream.r_frame_rate.getD "30/1")) ∧
    (ffprobe_media_info "clip.mp4" sampleProbeData).map (fun info => info.frame_count) =
      some ⌊stream_duration sampleProbeData sampleVideoStream *
        parse_frame_rate (sampleVideoStream.r_frame_rate.getD "30/1")⌋ := by
  have h1 : find_video_stream sampleProbeData = some sampleVideoStream := rfl
  have h2 : sampleVideoStream.nb_frames.getD 0 = (0 : Int) := rfl
  have h3 : 0 < stream_duration sampleProbeData sampleVideoStream := by
    show (0 : ℚ) < 53 / 100
    norm_num
  have h4 : 0 ≤ parse_frame_rate (sampleVideoStream.r_frame_rate.getD "30/1") := by
    have hr : sampleVideoStream.r_frame_rate.getD "30/1" = "20/1" := rfl
    rw [hr, parse_frame_rate_eval_20_1]
    norm_num
  exact ⟨⟨h1, h2, h3, h4⟩, ffprobe_frame_count_truncation "clip.mp4" _ _ h1 h2 h3 h4⟩

/-- C2 counterexample: on a stream with `duration = 0.53`, rate `20/1` and no
frame count, the code returns `frame_count = 10` (truncation of `10.6`), while
rounding to the nearest integer as the claim states gives `11`. -/
theorem ffprobe_frame_count_not_rounded :
    (ffprobe_media_info "clip.mp4" sampleProbeData).map (fun info => info.frame_count)
        = some 10 ∧
    stream_duration sampleProbeData sampleVideoStream = 53 / 100 ∧
    parse_frame_rate (sampleVideoStream.r_frame_rate.getD "30/1") = 20 ∧
    round ((53 / 100 : ℚ) * 20) = 11 := by
  have hfind : find_video_stream sampleProbeData = some sampleVideoStream := rfl
  have hdur : stream_duration sampleProbeData sampleVideoStream = 53 / 100 := rfl
  have hr : sampleVideoStream.r_frame_rate.getD "30/1" = "20/1" := rfl
  refine ⟨?_, hdur, by rw [hr, parse_frame_rate_eval_20_1], by norm_num [round_eq]⟩
  simp only [ffprobe_media_info, hfind, hdur, Option.map_some]
  simp only [sampleVideoStream, Option.getD, ratTrunc]
  rw [parse_frame_rate_eval_20_1]
  norm_num

/-- C4: the frame-rate parsing maps `"30000/1001"` to exactly `30000/1001`
(≈ 29.97), and maps any ratio string whose numerator or denominator does not
parse as a float, whose denominator parses to zero, or that splits into more
than two pieces, to exactly `30`. -/
theorem fps_ratio_parsing :
    parse_frame_rate "30000/1001" = 30000 / 1001 ∧
    (∀ s : String, ∀ a b : List Char, splitOnChar '/' s.toList = [a, b] →
      pyFloatChars a = none ∨ pyFloatChars b = none ∨ pyFloatChars b = some 0 →
      parse_frame_rate s = 30) ∧
    (∀ s : String, 3 ≤ (splitOnChar '/' s.toList).length → parse_frame_rate s = 30) := by
  refine ⟨?_, ?_, ?_⟩
  · have hs : splitOnChar '/' "30000/1001".toList =
        [['3','0','0','0','0'], ['1','0','0','1']] := rfl
    have h1 : pyFloatChars ['3','0','0','0','0'] = some ((30000 : ℕ) : ℚ) := rfl
    have h2 : pyFloatChars ['1','0','0','1'] = some ((1001 : ℕ) : ℚ) := rfl
    simp only [parse_frame_rate, hs, h1, h2]
    norm_num
  · intro s a b hsplit hbad
    simp only [parse_frame_rate, hsplit]
    rcases hbad with h | h | h
    · cases hb : pyFloatChars b <;> simp [h, hb]
    · cases ha : pyFloatChars a <;> simp [h, ha]
    · cases ha : pyFloatChars a <;> simp [h, ha]
  · intro s hlen
    rcases hsp : splitOnChar '/' s.toList with _ | ⟨a, tail⟩
    · rw [hsp] at hlen; simp at hlen
    · rcases tail with _ | ⟨b, tail2⟩
      · rw [hsp] at hlen; simp at hlen
      · rcases tail2 with _ | ⟨c, rest⟩
        · rw [hsp] at hlen; simp at hlen
        · simp only [parse_frame_rate, hsp]

/-- Witness for C4 on `"30000/1001"` and the zero-denominator ratio `"30/0"`. -/
theorem fps_ratio_parsing_witness :
    parse_frame_rate "30000/1001" = 30000 / 1001 ∧ parse_frame_rate "30/0" = 30 := by
  have hz : pyFloatChars ['0'] = some 0 := by
    have h : pyFloatChars ['0'] = some ((0 : ℕ) : ℚ) := rfl
    rw [h]; norm_num
  exact ⟨fps_ratio_parsing.1,
    fps_ratio_parsing.2.1 "30/0" ['3','0'] ['0'] rfl (Or.inr (Or.inr hz))⟩

/-- C5: the PIL branch of `get_media_info` classifies by container format: a
GIF container yields `format = "gif"` with the walked frame count (in
particular `frame_count = 1` for a single-frame GIF still yields `"gif"`),
and any other raster container yields `format = "image"`, `frame_count = 1`,
`duration = 0`, `fps = 0`. -/
theorem image_gif_classification (path : String) (img : PILImage) :
    (pil_format_name img.format = "gif" →
      (pil_media_info path img).format = "gif" ∧
      (pil_media_info path img).frame_count = (gif_frame_count img : Int)) ∧
    (pil_format_name img.format ≠ "gif" →
      (pil_media_info path img).format = "image" ∧
      (pil_media_info path img).frame_count = 1 ∧
      (pil_media_info path img).duration = 0 ∧
      (pil_media_info path img).fps = 0) ∧
    (∀ w h : Nat,
      (pil_media_info path { width := w, height := h, format := some "GIF" }).format
        = "gif" ∧
      (pil_media_info path { width := w, height := h, format := some "GIF" }).frame_count
        = 1) := by
  refine ⟨?_, ?_, ?_⟩
  · intro h
    simp [pil_media_info, h]
  · intro h
    simp [pil_media_info, h]
  · intro w h
    have hf : pil_format_name (some "GIF") = "gif" := rfl
    constructor
    · simp [pil_media_info, hf]
    · simp [pil_media_info, hf, gif_frame_count]

/-- Witness for C5 on a PNG container and a one-frame GIF container. -/
theorem image_gif_classification_witness :
    (pil_format_name (some "PNG") ≠ "gif" ∧
     (pil_media_info "x" { width := 2, height := 3, format := some "PNG" }).format
       = "image") ∧
    (pil_media_info "x" { width := 1, height := 1, format := some "GIF" }).format
      = "gif" := by
  have hne : pil_format_name (some "PNG") ≠ "gif" := by decide
  exact ⟨⟨hne,
    ((image_gif_classification "x"
      { width := 2, height := 3, format := some "PNG" }).2.1 hne).1⟩,
    ((image_gif_classification "x"
      { width := 2, height := 3, format := some "PNG" }).2.2 1 1).1⟩

/-- C7: `extract_frames_video` requests the first `requested_n` decode-order
frames with no fps filter when the probed duration is `≤ 0`, and otherwise
samples at `target_fps = max(0.1, requested_n / duration)` capped at
`requested_n` output frames. -/
theorem video_sampling_plan (d : ℚ) (n : Nat) :
    (d ≤ 0 → extract_frames_video_cmd d n =
        { filter := VideoFilter.selectFirst n, frames_cap := n } ∧
      ∀ r : ℚ, (extract_frames_video_cmd d n).filter ≠ VideoFilter.fpsRate r) ∧
    (0 < d → extract_frames_video_cmd d n =
      { filter := VideoFilter.fpsRate (max (1 / 10 : ℚ) ((n : ℚ) / d)),
        frames_cap := n }) := by
  constructor
  · intro hd
    refine ⟨by simp [extract_frames_video_cmd, hd], ?_⟩
    intro r
    simp [extract_frames_video_cmd, hd]
  · intro hd
    simp [extract_frames_video_cmd, not_le.mpr hd]

/-- Witness for C7 at `duration = 0`, `requested_n = 6`. -/
theorem video_sampling_plan_witness :
    (0 : ℚ) ≤ 0 ∧ extract_frames_video_cmd 0 6 =
      { filter := VideoFilter.selectFirst 6, frames_cap := 6 } :=
  ⟨le_refl 0, ((video_sampling_plan 0 6).1 (le_refl 0)).1⟩

/-- C8: `get_media_info` returns `none` exactly when the path does not exist
or both backends fail (PIL cannot open the file, and ffprobe produces no
output or no video stream); in every other case a complete `MediaInfo` is
returned — never a partial result. -/
theorem get_media_info_all_or_nothing (path : String) (path_exists : Bool)
    (pil : Option PILImage) (probe : Option FFProbeData) :
    get_media_info path path_exists pil probe = none ↔
      path_exists = false ∨
      (pil = none ∧ Option.bind probe find_video_stream = none) := by
  cases path_exists
  · simp [get_media_info]
  · cases pil with
    | some img => simp [get_media_info]
    | none =>
      cases probe with
      | none => simp [get_media_info]
      | some pd =>
        cases hv : find_video_stream pd with
        | none => simp [get_media_info, ffprobe_media_info, hv]
        | some vs => simp [get_media_info, ffprobe_media_info, hv]

/-- Witness for C8: with both backends failing the probe fails. -/
theorem get_media_info_all_or_nothing_witness :
    get_media_info "missing.bin" true none none = none :=
  (get_media_info_all_or_nothing "missing.bin" true none none).mpr (Or.inr ⟨rfl, rfl⟩)

/-- C9: white-background compositing in `optimize_image` happens only when the
target format is JPEG; for an RGBA input and target `"png"` or `"webp"` the
pixel mode is left unchanged and no compositing occurs. -/
theorem white_compositing_only_jpeg :
    (∀ fmt : String, ∀ mode : PixMode,
      (optimize_image_mode fmt mode).2 = true → fmt = "jpg" ∨ fmt = "jpeg") ∧
    (∀ fmt : String, fmt = "png" ∨ fmt = "webp" →
      optimize_image_mode fmt PixMode.RGBA = (PixMode.RGBA, false)) := by
  constructor
  · intro fmt mode h
    by_cases hc : (fmt = "jpg" ∨ fmt = "jpeg") ∧
        (mode = PixMode.RGBA ∨ mode = PixMode.P ∨ mode = PixMode.LA)
    · exact hc.1
    · exfalso
      simp only [optimize_image_mode, if_neg hc] at h
      by_cases hm : mode = PixMode.RGB ∨ mode = PixMode.RGBA ∨ mode = PixMode.L
      · rw [if_pos hm] at h; simp at h
      · rw [if_neg hm] at h; simp at h
  · rintro fmt (rfl | rfl) <;> decide

/-- Witness for C9 at target format `"png"`. -/
theorem white_compositing_only_jpeg_witness :
    optimize_image_mode "png" PixMode.RGBA = (PixMode.RGBA, false) :=
  white_compositing_only_jpeg.2 "png" (Or.inl rfl)

end V2I
